import Mathlib

/-!
Verification of the subgraph pattern-matching and rewrite passes:
`FusionAttentionClip` (fusion_attention_clip.py), the Phi block-fission
passes (onnx_model_phi.py), and `qnn_preprocess_model` (preprocess.py).

The data model is a shallow embedding of the ONNX graph as seen by these
passes: nodes carry a name, an operator-kind tag, and ordered input/output
edge-name lists.  Attribute payloads and tensor contents are not consulted
by any verified property and are omitted.
-/

/-- A graph node: name, operator kind, ordered input edge names, ordered
output edge names.  (Attribute payloads are never consulted by the verified
properties and are omitted.) -/
structure Node where
  name : String
  op_type : String
  input : List String
  output : List String
deriving DecidableEq

instance : Inhabited Node := ⟨⟨"", "", [], []⟩⟩

/-- The graph: ordered node list, initializer names, value_info names.
Only names are tracked for initializers and value_info: no verified
property consults tensor payloads. -/
structure Graph where
  nodes : List Node
  initializers : List String
  value_info : List String
deriving DecidableEq

/-- The pass-scoped pending edit set plus the warn-once flags held by a
fusion pass instance (fusion_base.Fusion fields used by the passes in
scope).  `warnings` records emitted warning messages in order. -/
structure FusionState where
  nodes_to_add : List Node
  nodes_to_remove : List Node
  node_name_to_graph_name : List (String × String)
  prune_graph : Bool
  num_heads_warning : Bool
  hidden_size_warning : Bool
  warnings : List String
deriving DecidableEq

/-- Initial state of a fusion pass instance: empty edit set, both
warn-once flags armed. -/
def initState : FusionState :=
  { nodes_to_add := [], nodes_to_remove := [], node_name_to_graph_name := [],
    prune_graph := false, num_heads_warning := true, hidden_size_warning := true,
    warnings := [] }

/-- The four components of the pending edit set of a pass (the state the
matching step is allowed to write, per the fusion pass contract). -/
def editParts (st : FusionState) :
    List Node × List Node × List (String × String) × Bool :=
  (st.nodes_to_add, st.nodes_to_remove, st.node_name_to_graph_name, st.prune_graph)

/-- Lookup `output_name_to_node`: the node producing the given edge name
(first producer in node order; graph invariant: output names are unique). -/
def getProducer (g : Graph) (edge : String) : Option Node :=
  g.nodes.find? (fun n => n.output.contains edge)

/-- Embedding of `OnnxModel.match_parent` with an explicit input slot: the node producing
`n`'s input at `slot` if that producer's operator kind equals `kind`. -/
def matchParent (g : Graph) (n : Node) (kind : String) (slot : Nat) : Option Node :=
  match n.input[slot]? with
  | none => none
  | some edge =>
    match getProducer g edge with
    | none => none
    | some p => if p.op_type = kind then some p else none

/-- Wildcard slot search of `OnnxModel.match_parent` with `input_index = None`:
try every input slot in order (starting at index `i`) and accept the first
producer whose kind matches, returning the matched slot index as well. -/
def findWild (g : Graph) (inputs : List String) (kind : String) (i : Nat) :
    Option (Node × Nat) :=
  match inputs with
  | [] => none
  | e :: rest =>
    match getProducer g e with
    | some p =>
      if p.op_type = kind then some (p, i) else findWild g rest kind (i + 1)
    | none => findWild g rest kind (i + 1)

/-- Embedding of `OnnxModel.match_parent_path`: walk backward from `node` through the given
(kind, slot) steps (`none` slot = wildcard).  Fails atomically; on success
returns the matched chain and the recorded wildcard slot indices in step
order (the `return_indice` output). -/
def match_parent_path (g : Graph) : Node → List (String × Option Nat) →
    Option (List Node × List Nat)
  | _, [] => some ([], [])
  | cur, (kind, some slot) :: rest =>
    match matchParent g cur kind slot with
    | none => none
    | some p =>
      match match_parent_path g p rest with
      | none => none
      | some (chain, idxs) => some (p :: chain, idxs)
  | cur, (kind, none) :: rest =>
    match findWild g cur.input kind 0 with
    | none => none
    | some (p, i) =>
      match match_parent_path g p rest with
      | none => none
      | some (chain, idxs) => some (p :: chain, i :: idxs)

/-!
## FusionAttentionClip (fusion_attention_clip.py)

The pass environment bundles the graph with the external collaborators the
pass calls into.  Functions living outside the four source files in scope
(`get_constant_value`, `find_first_child_by_type`, `create_attention_node`)
are modelled from the spec as oracle fields / parameters, as noted on each.
-/

/-- Environment of a `FusionAttentionClip` pass instance.

* `gcv` — Modelled from the spec: the Constant Resolver
  (`OnnxModel.get_constant_value`, not in scope): resolves an edge name to a
  concrete numeric value if it originates from an initializer or a single
  constant-producing node, else returns `none` ("unresolved").
* `firstLNChild` — Modelled from the spec: the Graph Model's
  name-to-consuming-nodes lookup used by `find_first_child_by_type(node,
  "LayerNormalization", ..., recursive=False)` (not in scope): a direct
  consumer of the node of kind LayerNormalization, if any.
* `can_create` / `attn_name` — Modelled from the spec:
  `create_attention_node` (fusion_attention.py, not in scope) synthesizes a
  replacement node with a freshly-derived unique name or fails; success and
  the fresh name are oracle data. -/
structure ClipEnv where
  g : Graph
  gcv : String → Option (List Int)
  firstLNChild : Node → Option Node
  can_create : Bool
  attn_name : String
  num_heads : Int
  hidden_size : Int
  this_graph_name : String

/-- Warning text for a num_heads hint conflicting with the detected value
(interpolated values abstracted away). -/
def numHeadsWarnMsg : String := "num_heads hint differs from detected value, using detected value"

/-- Warning text for a hidden_size hint conflicting with the detected value
(interpolated values abstracted away). -/
def hiddenSizeWarnMsg : String := "hidden_size hint differs from detected value, using detected value"

/-- The num_heads hint-conflict warning step: when a positive hint
disagrees with the detected value and the warn-once flag is still armed,
log the warning and disarm the flag. -/
def warnNumHeads (env : ClipEnv) (detected : Int) (st : FusionState) : FusionState :=
  if env.num_heads > 0 ∧ detected ≠ env.num_heads then
    if st.num_heads_warning then
      { st with num_heads_warning := false,
                warnings := st.warnings ++ [numHeadsWarnMsg] }
    else st
  else st

/-- The hidden_size hint-conflict warning step. -/
def warnHiddenSize (env : ClipEnv) (detected : Int) (st : FusionState) : FusionState :=
  if env.hidden_size > 0 ∧ detected ≠ env.hidden_size then
    if st.hidden_size_warning then
      { st with hidden_size_warning := false,
                warnings := st.warnings ++ [hiddenSizeWarnMsg] }
    else st
  else st

/-- Embedding of `FusionAttentionClip.get_num_heads_and_hidden_size`: detect num_heads
and hidden_size from the shape Concat feeding `reshape_q`'s input 1,
falling back to the caller-supplied hints; the warn-once flags and the
warning log live in the pass state. -/
def get_num_heads_and_hidden_size (env : ClipEnv) (st : FusionState) (reshape_q : Node) :
    (Int × Int) × FusionState :=
  match matchParent env.g reshape_q "Concat" 1 with
  | none => ((env.num_heads, env.hidden_size), st)
  | some concat =>
    if concat.input.length ≠ 4 then ((env.num_heads, env.hidden_size), st)
    else
      match env.gcv (concat.input.getD 2 "") with
      | none => ((env.num_heads, env.hidden_size), st)
      | some num_head_value =>
        if num_head_value.length ≠ 1 ∨ num_head_value.getD 0 0 ≤ 0 then
          ((env.num_heads, env.hidden_size), st)
        else
          let num_heads := num_head_value.getD 0 0
          match env.gcv (concat.input.getD 3 "") with
          | none => ((env.num_heads, env.hidden_size), st)
          | some head_size_value =>
            if head_size_value.length ≠ 1 ∨ head_size_value.getD 0 0 ≤ 0 then
              ((env.num_heads, env.hidden_size), st)
            else
              let head_size := head_size_value.getD 0 0
              let hidden_size := num_heads * head_size
              ((num_heads, hidden_size),
                warnHiddenSize env hidden_size (warnNumHeads env num_heads st))

/-- The value component of `get_num_heads_and_hidden_size` as the claim
words it: caller-supplied defaults whenever the Concat parent at input 1
is absent or does not have exactly 4 inputs, or either `concat.input[2]`
or `concat.input[3]` fails constant resolution, is not single-element, or
is not positive; otherwise `(num_heads, num_heads * head_size)` from the
two resolved constants. -/
def claim_num_heads_hidden (env : ClipEnv) (reshape_q : Node) : Int × Int :=
  match matchParent env.g reshape_q "Concat" 1 with
  | none => (env.num_heads, env.hidden_size)
  | some concat =>
    if concat.input.length = 4 then
      match env.gcv (concat.input.getD 2 ""), env.gcv (concat.input.getD 3 "") with
      | some v2, some v3 =>
        if v2.length = 1 ∧ 0 < v2.getD 0 0 ∧ v3.length = 1 ∧ 0 < v3.getD 0 0 then
          (v2.getD 0 0, v2.getD 0 0 * v3.getD 0 0)
        else (env.num_heads, env.hidden_size)
      | _, _ => (env.num_heads, env.hidden_size)
    else (env.num_heads, env.hidden_size)

/-- Kinds of the qkv chain matched from the anchor. -/
def qkvKinds : List String := ["Add", "MatMul", "Reshape", "Transpose", "Reshape", "MatMul"]

/-- Slots of the qkv chain: `[1 - skip_input_index, None, None, 0, 0, 0]`. -/
def qkvSlots (skip_input_index : Nat) : List (Option Nat) :=
  [some (1 - skip_input_index), none, none, some 0, some 0, some 0]

/-- Kinds of the v chain matched from `matmul_qkv`. -/
def vKinds : List String := ["Reshape", "Transpose", "Reshape", "Add", "MatMul"]

/-- Slots of the v chain: `[1, 0, 0, 0, None]`. -/
def vSlots : List (Option Nat) := [some 1, some 0, some 0, some 0, none]

/-- Kinds of the qk chain matched from `matmul_qkv`. -/
def qkKinds : List String := ["Softmax", "Reshape", "Add", "Reshape", "MatMul"]

/-- Slots of the qk chain: `[0, 0, 0, None, 0]` (the wildcard's matched slot
is recorded into `add_mask_indices`). -/
def qkSlots : List (Option Nat) := [some 0, some 0, some 0, none, some 0]

/-- Kinds of the q chain matched from `matmul_qk`. -/
def qKinds : List String := ["Reshape", "Transpose", "Reshape", "Mul", "Add", "MatMul"]

/-- Slots of the q chain: `[0, 0, 0, 0, None, None]`. -/
def qSlots : List (Option Nat) := [some 0, some 0, some 0, some 0, none, none]

/-- Kinds of the k chain matched from `matmul_qk`. -/
def kKinds : List String := ["Transpose", "Reshape", "Transpose", "Reshape", "Add", "MatMul"]

/-- Slots of the k chain: `[1, 0, 0, 0, 0, None]`. -/
def kSlots : List (Option Nat) := [some 1, some 0, some 0, some 0, some 0, none]

/-- Kinds of the primary causal-mask chain matched from `add_mask`. -/
def maskKinds : List String := ["Concat", "Expand", "Unsqueeze", "Unsqueeze", "Where", "Less"]

/-- Slots of the primary causal-mask chain. -/
def maskSlots (causal_mask_input_index : Nat) : List (Option Nat) :=
  [some causal_mask_input_index, some 0, some 0, some 0, some 0, some 0]

/-- Kinds of the fallback causal-mask chain (no leading Concat: model
exported with batch_size == 1). -/
def maskFbKinds : List String := ["Expand", "Unsqueeze", "Unsqueeze", "Where", "Less"]

/-- Slots of the fallback causal-mask chain. -/
def maskFbSlots (causal_mask_input_index : Nat) : List (Option Nat) :=
  [some causal_mask_input_index, some 0, some 0, some 0, some 0]

/-- The nodes bound by `FusionAttentionClip.fuse` once every parent chain
has matched, plus the selected skip input index and root edge. -/
structure ClipMatch where
  skip_input_index : Nat
  root_input : String
  reshape_qkv : Node
  transpose_qkv : Node
  matmul_qkv : Node
  reshape_v : Node
  add_v : Node
  matmul_v : Node
  add_mask : Node
  matmul_qk : Node
  causal_mask_input_index : Nat
  reshape_q : Node
  mul_q : Node
  add_q : Node
  matmul_q : Node
  add_k : Node
  matmul_k : Node
deriving DecidableEq

instance : Inhabited ClipMatch :=
  ⟨⟨0, "", default, default, default, default, default, default, default, default,
    0, default, default, default, default, default, default⟩⟩

/-- Root selection of `FusionAttentionClip.fuse`: the `for i in [1, 0]` loop
over SkipLayerNormalization parents (no break: the last success wins), with
the Add / first-LayerNormalization-child fallback loop (`for i in [0, 1]`,
break on first success) for the first attention after the embedding layer.
Returns `(skip_input_index, root_input)`. -/
def clipRootSel (env : ClipEnv) (nrm : Node) : Option (Nat × String) :=
  let sel := ([1, 0] : List Nat).foldl (fun acc i =>
    match matchParent env.g nrm "SkipLayerNormalization" i with
    | some p => some (i, p)
    | none => acc) none
  match sel with
  | some (i, p) => some (i, p.output.getD 0 "")
  | none =>
    ([0, 1] : List Nat).foldl (fun acc i =>
      match acc with
      | some r => some r
      | none =>
        match matchParent env.g nrm "Add" i with
        | none => none
        | some p =>
          match env.firstLNChild p with
          | none => none
          | some c => some (i, c.output.getD 0 "")) none

/-- The five parent-chain matches of `FusionAttentionClip.fuse` after root
selection, in source order (qkv, v, qk, q, k); fails atomically. -/
def clipMatchFrom (env : ClipEnv) (nrm : Node) (skip_input_index : Nat)
    (root_input : String) : Option ClipMatch :=
  match match_parent_path env.g nrm (qkvKinds.zip (qkvSlots skip_input_index)) with
  | none => none
  | some (qkv, _) =>
    match match_parent_path env.g (qkv.getD 5 default) (vKinds.zip vSlots) with
    | none => none
    | some (vns, _) =>
      match match_parent_path env.g (qkv.getD 5 default) (qkKinds.zip qkSlots) with
      | none => none
      | some (qkns, add_mask_indices) =>
        match match_parent_path env.g (qkns.getD 4 default) (qKinds.zip qSlots) with
        | none => none
        | some (qns, _) =>
          match match_parent_path env.g (qkns.getD 4 default) (kKinds.zip kSlots) with
          | none => none
          | some (kns, _) =>
            some { skip_input_index := skip_input_index,
                   root_input := root_input,
                   reshape_qkv := qkv.getD 2 default,
                   transpose_qkv := qkv.getD 3 default,
                   matmul_qkv := qkv.getD 5 default,
                   reshape_v := vns.getD 2 default,
                   add_v := vns.getD 3 default,
                   matmul_v := vns.getD 4 default,
                   add_mask := qkns.getD 2 default,
                   matmul_qk := qkns.getD 4 default,
                   causal_mask_input_index := 1 - add_mask_indices.getD 0 0,
                   reshape_q := qns.getD 2 default,
                   mul_q := qns.getD 3 default,
                   add_q := qns.getD 4 default,
                   matmul_q := qns.getD 5 default,
                   add_k := kns.getD 4 default,
                   matmul_k := kns.getD 5 default }

/-- Root selection followed by the five chain matches. -/
def clipMatchChains (env : ClipEnv) (nrm : Node) : Option ClipMatch :=
  match clipRootSel env nrm with
  | none => none
  | some (i, r) => clipMatchFrom env nrm i r

/-- Causal-mask structural check: primary chain first, fallback chain only
if the primary fails. -/
def clipCausalMask (env : ClipEnv) (add_mask : Node) (cmi : Nat) : Option (List Node) :=
  match match_parent_path env.g add_mask (maskKinds.zip (maskSlots cmi)) with
  | some r => some r.1
  | none => (match_parent_path env.g add_mask (maskFbKinds.zip (maskFbSlots cmi))).map Prod.fst

/-- Modelled from the spec: `create_attention_node` (fusion_attention.py,
not in scope) synthesizes the replacement Attention node with a
freshly-derived unique name, wired to the already-existing root input edge
and to the given output edge name; may fail, returning `none`. -/
def create_attention_node (env : ClipEnv) (input output : String) : Option Node :=
  if env.can_create then
    some { name := env.attn_name, op_type := "Attention",
           input := [input], output := [output] }
  else none

/-- Embedding of `FusionAttentionClip.fuse`: match, validate the shared root, resolve
num_heads / hidden_size, check the causal mask, then queue the replacement
node and the consumed nodes in the pending edit set.  Returns the (never
modified) graph together with the updated pass state. -/
def FusionAttentionClip_fuse (env : ClipEnv) (st : FusionState) (nrm : Node) :
    Graph × FusionState :=
  match clipMatchChains env nrm with
  | none => (env.g, st)
  | some m =>
    if m.matmul_q.input.getD 0 "" = m.root_input ∧
       m.matmul_k.input.getD 0 "" = m.root_input ∧
       m.matmul_v.input.getD 0 "" = m.root_input then
      let hres := get_num_heads_and_hidden_size env st m.reshape_q
      let st1 := hres.2
      if hres.1.1 ≤ 0 ∨ hres.1.2 ≤ 0 then (env.g, st1)
      else
        match clipCausalMask env m.add_mask m.causal_mask_input_index with
        | none => (env.g, st1)
        | some _ =>
          match create_attention_node env m.root_input (m.reshape_qkv.output.getD 0 "") with
          | none => (env.g, st1)
          | some new_node =>
            (env.g,
              { st1 with
                nodes_to_add := st1.nodes_to_add ++ [new_node],
                node_name_to_graph_name :=
                  st1.node_name_to_graph_name ++ [(new_node.name, env.this_graph_name)],
                nodes_to_remove := st1.nodes_to_remove ++ [m.reshape_qkv, m.transpose_qkv],
                prune_graph := true })
    else (env.g, st)

/-- A sequence of `get_num_heads_and_hidden_size` calls within one pass
instance, threading the pass state. -/
def runNumHeadsCalls (st : FusionState) : List (ClipEnv × Node) → FusionState
  | [] => st
  | (env, rq) :: rest =>
    runNumHeadsCalls (get_num_heads_and_hidden_size env st rq).2 rest

/-!
## Phi fission / post-process passes (onnx_model_phi.py)
-/

/-- Embedding of `FissionTransformerBlockPhi.uname`: layer-unique name. -/
def uname (layer_id : Nat) (name : String) : String := name ++ "_" ++ Nat.repr layer_id

/-- Function op-type name of the Phi transformer block for a 0-based layer. -/
def phiFuncName (i : Nat) : String :=
  "model_modeling_mixformer_sequential_ParallelBlock_sub" ++ Nat.repr (i + 1) ++ "_1"

/-- Embedding of `FissionTransformerBlockPhi.func_to_layer_id`: op-type name to layer id
for the 32 Phi layers. -/
def func_to_layer_id : List (String × Nat) :=
  (List.range 32).map fun i => (phiFuncName i, i + 1)

/-- Embedding of `FissionTransformerBlockPhi.get_layer_id` (the fusion framework only
calls `fuse` on nodes whose op kind is one of the 32 function names; the
`getD 0` default is unreachable in that setting). -/
def get_layer_id (node : Node) : Nat :=
  ((func_to_layer_id.find? (fun p => p.1 = node.op_type)).map Prod.snd).getD 0

/-- Embedding of `FissionTransformerBlockPhi.process_initializer`: build a tensor named
`initializer_name ++ "_processed"` and add it to the graph's initializers,
returning the new name.  The numeric reshape/transpose functor applied to
the tensor payload is out of scope (only names are tracked); the
graph-mutation and naming behavior is what the claims consult. -/
def process_initializer (g : Graph) (initializer_name : String) : Graph × String :=
  let newName := initializer_name ++ "_processed"
  ({ g with initializers := g.initializers ++ [newName] }, newName)

/-- Embedding of `FissionTransformerBlockPhi.add_fp32_value_info`: append a value_info
entry for the given name to the graph (element type FLOAT omitted: names
only). -/
def add_fp32_value_info (g : Graph) (name : String) : Graph :=
  { g with value_info := g.value_info ++ [name] }

/-- The decomposed replacement subgraph built by
`FissionTransformerBlockPhi.fuse_with_attn` for one transformer block node
(inputs/outputs wired exactly as in the source; node attributes omitted). -/
def phiSubgraphNodes (layer_id : Nat) (i_hidden_states i_attn_mask i_kv_cache
    o_hidden_states o_kv_cache ln_weight ln_bias attn_qkv_weight attn_qkv_bias
    attn_out_weight attn_out_bias mlp_fc1_weight mlp_fc1_bias mlp_fc2_weight
    mlp_fc2_bias : String) : List Node :=
  [{ name := uname layer_id "LayerNormalization", op_type := "LayerNormalization",
     input := [i_hidden_states, ln_weight, ln_bias],
     output := [uname layer_id "ln_out"] },
   { name := uname layer_id "Attention", op_type := "Attention",
     input := [uname layer_id "ln_out", attn_qkv_weight, attn_qkv_bias,
               i_attn_mask, i_kv_cache],
     output := [uname layer_id "attn_out", o_kv_cache] },
   { name := uname layer_id "OutProj_MatMul", op_type := "MatMul",
     input := [uname layer_id "attn_out", attn_out_weight],
     output := [uname layer_id "matmul_out"] },
   { name := uname layer_id "OutProj_Add", op_type := "Add",
     input := [uname layer_id "matmul_out", attn_out_bias],
     output := [uname layer_id "add_out"] },
   { name := uname layer_id "FC1_MatMul", op_type := "MatMul",
     input := [uname layer_id "ln_out", mlp_fc1_weight],
     output := [uname layer_id "fc1_w_out"] },
   { name := uname layer_id "FC1_Bias", op_type := "Add",
     input := [uname layer_id "fc1_w_out", mlp_fc1_bias],
     output := [uname layer_id "fc1_b_out"] },
   { name := uname layer_id "FastGelu", op_type := "FastGelu",
     input := [uname layer_id "fc1_b_out"],
     output := [uname layer_id "new_gelu_out"] },
   { name := uname layer_id "FC2_MatMul", op_type := "MatMul",
     input := [uname layer_id "new_gelu_out", mlp_fc2_weight],
     output := [uname layer_id "fc2_w_out"] },
   { name := uname layer_id "FC2_Bias", op_type := "Add",
     input := [uname layer_id "fc2_w_out", mlp_fc2_bias],
     output := [uname layer_id "fc2_b_out"] },
   { name := uname layer_id "Residual_Add_1", op_type := "Add",
     input := [uname layer_id "add_out", uname layer_id "fc2_b_out"],
     output := [uname layer_id "residual_1_out"] },
   { name := uname layer_id "Residual_Add_2", op_type := "Add",
     input := [i_hidden_states, uname layer_id "residual_1_out"],
     output := [o_hidden_states] }]

/-- Queue a list of new nodes: append each to `nodes_to_add` and record its
graph partition, as the `for new_node in subgraph_nodes` loop does. -/
def queueNodes (gname : String) (st : FusionState) (ns : List Node) : FusionState :=
  ns.foldl (fun s n =>
    { s with nodes_to_add := s.nodes_to_add ++ [n],
             node_name_to_graph_name := s.node_name_to_graph_name ++ [(n.name, gname)] }) st

/-- Embedding of `FissionTransformerBlockPhi.fuse_with_attn`: read the block node's
I/O and weights, process three weight initializers (adding processed
copies to the graph), queue the 11 replacement nodes, add value_info
entries, queue the block node for removal and request pruning. -/
def fuse_with_attn (gname : String) (g : Graph) (st : FusionState) (node : Node) :
    Graph × FusionState :=
  let layer_id := get_layer_id node
  let i_hidden_states := if layer_id = 1 then node.input.getD 0 "" else node.input.getD 2 ""
  let i_attn_mask := node.input.getD 1 ""
  let i_kv_cache := node.input.getD 3 ""
  let o_hidden_states := node.output.getD 1 ""
  let o_kv_cache := node.output.getD 0 ""
  let ln_weight := node.input.getD 4 ""
  let ln_bias := node.input.getD 5 ""
  let p1 := process_initializer g (node.input.getD 6 "")
  let attn_qkv_bias := node.input.getD 7 ""
  let p2 := process_initializer p1.1 (node.input.getD 10 "")
  let attn_out_bias := node.input.getD 11 ""
  let p3 := process_initializer p2.1 (node.input.getD 12 "")
  let mlp_fc1_bias := node.input.getD 13 ""
  let p4 := process_initializer p3.1 (node.input.getD 14 "")
  let mlp_fc2_bias := node.input.getD 15 ""
  let subgraph_nodes := phiSubgraphNodes layer_id i_hidden_states i_attn_mask
    i_kv_cache o_hidden_states o_kv_cache ln_weight ln_bias p1.2 attn_qkv_bias
    p2.2 attn_out_bias p3.2 mlp_fc1_bias p4.2 mlp_fc2_bias
  let st1 := queueNodes gname st subgraph_nodes
  let g5 := [uname layer_id "ln_out", uname layer_id "attn_out",
             uname layer_id "matmul_out", uname layer_id "add_out",
             uname layer_id "fc1_w_out", uname layer_id "fc1_b_out",
             uname layer_id "new_gelu_out", uname layer_id "fc2_w_out",
             uname layer_id "fc2_b_out", uname layer_id "residual_1_out"
            ].foldl add_fp32_value_info p4.1
  (g5, { st1 with nodes_to_remove := st1.nodes_to_remove ++ [node],
                  prune_graph := true })

/-- Embedding of `PostProcessCausalLMHead.fuse`: in-place mutation of the anchor node,
`node.input[0] = node.input[1]` (the node is replaced inside the graph's
node list; node names are unique once assigned, so name equality identifies
the mutated instance). -/
def postProcessCausalLMHead_fuse (g : Graph) (st : FusionState) (node : Node) :
    Graph × FusionState :=
  let nodeUpd := { node with input := node.input.set 0 (node.input.getD 1 "") }
  ({ g with nodes := g.nodes.map fun n => if n.name = node.name then nodeUpd else n }, st)

/-!
## qnn_preprocess_model (preprocess.py)

The Gelu / LpNormalization / LayerNormalization fusions and
`topological_sort` live outside the files in scope and are oracle fields
of the environment (the spec's fusion-pass contract: a pass takes the
graph and reports whether it changed anything).
`get_largest_node_name_suffix` is likewise modelled from the spec.
-/

/-- Value of a decimal digit character, `none` for non-digits. -/
def digitVal (c : Char) : Option Nat :=
  if c = '0' then some 0 else if c = '1' then some 1 else if c = '2' then some 2
  else if c = '3' then some 3 else if c = '4' then some 4 else if c = '5' then some 5
  else if c = '6' then some 6 else if c = '7' then some 7 else if c = '8' then some 8
  else if c = '9' then some 9 else none

/-- Decode a decimal digit string into a number (accumulator form);
`none` on any non-digit. -/
def decodeDigits : Nat → List Char → Option Nat
  | acc, [] => some acc
  | acc, c :: cs =>
    match digitVal c with
    | some d => decodeDigits (acc * 10 + d) cs
    | none => none

/-- Number of decimal digits of a natural number. -/
def decLen (n : Nat) : Nat :=
  if n < 10 then 1 else decLen (n / 10) + 1
decreasing_by exact Nat.div_lt_self (by omega) (by omega)

/-- Numeric suffix of `name` relative to prefix `pfx`: `some k` when `name`
is `pfx` followed by a nonempty decimal digit string denoting `k`. -/
def nameSuffix (pfx name : String) : Option Nat :=
  if pfx.data.isPrefixOf name.data then
    match name.data.drop pfx.data.length with
    | [] => none
    | c :: cs => decodeDigits 0 (c :: cs)
  else none

/-- Modelled from the spec: `ONNXModel.get_largest_node_name_suffix`
(quantization onnx_model.py, not in scope) — the current maximum existing
numeric suffix among node names starting with the given prefix, `-1` when
none exists. -/
def get_largest_node_name_suffix (nodes : List Node) (pfx : String) : Int :=
  nodes.foldl (fun acc n =>
    match nameSuffix pfx n.name with
    | some k => max acc (k : Int)
    | none => acc) (-1)

/-- The node-renaming loop of `qnn_preprocess_model`: every node whose op
kind is not `Constant` and whose name is empty is renamed to
`pfx ++ repr k` with `k` incrementing per renamed node.  Returns the new
node list, the next free suffix, and the assigned names in order. -/
def renameNodes (pfx : String) : Nat → List Node → List Node × Nat × List String
  | k, [] => ([], k, [])
  | k, n :: rest =>
    if n.op_type ≠ "Constant" ∧ n.name = "" then
      let r := renameNodes pfx (k + 1) rest
      ({ n with name := pfx ++ Nat.repr k } :: r.1, r.2.1, (pfx ++ Nat.repr k) :: r.2.2)
    else
      let r := renameNodes pfx k rest
      (n :: r.1, r.2.1, r.2.2)

/-- One entry of `model.opset_import`. -/
structure OpsetImport where
  domain : String
  version : Int
deriving DecidableEq

/-- The model as consumed by `qnn_preprocess_model`: nodes plus opset
imports. -/
structure QnnModel where
  nodes : List Node
  opset_import : List OpsetImport
deriving DecidableEq

/-- External collaborators of `qnn_preprocess_model`, modelled from the
spec: each fusion takes the graph and returns the possibly-mutated graph
plus a was-anything-changed flag (`Fusion.apply`); `topo_sort` restores a
topological node ordering before externalization. -/
structure QnnEnv where
  gelu : QnnModel → QnnModel × Bool
  lpnorm : QnnModel → QnnModel × Bool
  layernorm : QnnModel → QnnModel × Bool
  topo_sort : QnnModel → QnnModel

/-- The fixed prefix used when auto-naming nodes. -/
def unnamedNodePfx : String := "qnn_preproc_node_"

/-- Warning text for the opset-too-low LayerNormalization skip
(interpolated version number abstracted away). -/
def opsetWarnMsg : String :=
  "Unable to fuse ReduceMean sequence into a LayerNormalization node: opset 17 required"

/-- Warning text for an auto-renamed node. -/
def renameWarnMsg (newName : String) : String :=
  "Node does not have a name. Renamed to " ++ newName ++ "."

/-- The default-ONNX-domain opset entry: first entry whose domain is `""`
or `"ai.onnx"` (the `next(...)` generator expression). -/
def defaultOpset (m : QnnModel) : Option OpsetImport :=
  m.opset_import.find? fun x => x.domain = "" || x.domain = "ai.onnx"

/-- Result of a `qnn_preprocess_model` run: the returned modified flag,
the model written to `model_output` (`none` when nothing was written),
the fusions attempted in order, and the warnings logged. -/
structure QnnResult where
  ret : Bool
  saved : Option QnnModel
  attempted : List String
  warnings : List String
deriving DecidableEq

/-- Embedding of `qnn_preprocess_model`: apply the Gelu and LpNormalization fusions,
optionally the LayerNormalization fusion (skipped with a warning when the
default-domain opset version is below 17), rename unnamed non-Constant
nodes, and write the topologically sorted model exactly when anything
changed.  Returns `none` for the uncaught `StopIteration` when
`fuse_layernorm` is set and no default-domain opset entry exists. -/
def qnn_preprocess_model (env : QnnEnv) (m0 : QnnModel) (fuse_layernorm : Bool) :
    Option QnnResult :=
  let r1 := env.gelu m0
  let r2 := env.lpnorm r1.1
  let step3 : Option (QnnModel × Bool × List String × List String) :=
    if fuse_layernorm then
      match defaultOpset r2.1 with
      | none => none
      | some op =>
        if op.version < 17 then some (r2.1, false, [], [opsetWarnMsg])
        else
          let r3 := env.layernorm r2.1
          some (r3.1, r3.2, ["FusionLayerNormalization"], [])
    else some (r2.1, false, [], [])
  match step3 with
  | none => none
  | some (m3, ln_mod, att, ws) =>
    let start := (get_largest_node_name_suffix m3.nodes unnamedNodePfx + 1).toNat
    let rn := renameNodes unnamedNodePfx start m3.nodes
    let m4 : QnnModel := { m3 with nodes := rn.1 }
    let modified := r1.2 || r2.2 || ln_mod || !rn.2.2.isEmpty
    some { ret := modified,
           saved := if modified then some (env.topo_sort m4) else none,
           attempted := ["FusionGelu", "FusionLpNormalization"] ++ att,
           warnings := ws ++ rn.2.2.map renameWarnMsg }

/-- The model after the Gelu and LpNormalization fusions. -/
def qnnM2 (env : QnnEnv) (m0 : QnnModel) : QnnModel := (env.lpnorm (env.gelu m0).1).1

/-- Whether the LayerNormalization fusion, when it runs, reports a change. -/
def qnnLnApplied (env : QnnEnv) (m0 : QnnModel) (fl : Bool) : Bool :=
  if fl then
    match defaultOpset (qnnM2 env m0) with
    | none => false
    | some op => if op.version < 17 then false else (env.layernorm (qnnM2 env m0)).2
  else false

/-- The model reaching the renaming loop. -/
def qnnM3 (env : QnnEnv) (m0 : QnnModel) (fl : Bool) : QnnModel :=
  if fl then
    match defaultOpset (qnnM2 env m0) with
    | none => qnnM2 env m0
    | some op =>
      if op.version < 17 then qnnM2 env m0 else (env.layernorm (qnnM2 env m0)).1
  else qnnM2 env m0

/-- Whether the renaming loop renamed at least one node. -/
def qnnRenamed (env : QnnEnv) (m0 : QnnModel) (fl : Bool) : Bool :=
  let m3 := qnnM3 env m0 fl
  !(renameNodes unnamedNodePfx
      (get_largest_node_name_suffix m3.nodes unnamedNodePfx + 1).toNat m3.nodes).2.2.isEmpty

/-!
## Concrete fixtures

A CLIP attention subgraph exercising every chain of
`FusionAttentionClip.fuse`, parameterized by the edge feeding
`matmul_k`'s input 0 (`kRoot`) and by the edge carrying the causal mask
into `add_mask` (`maskEdge`), plus small fixtures for the other passes.
-/

/-- The anchor SkipLayerNormalization node of the CLIP fixture. -/
def anchorNode : Node :=
  { name := "anchor", op_type := "SkipLayerNormalization",
    input := ["add_top_out", "root"], output := ["anchor_out"] }

/-- Nodes of the CLIP fixture graph. -/
def clipNodes (kRoot maskEdge : String) : List Node :=
  [{ name := "sln_prev", op_type := "SkipLayerNormalization",
     input := ["pe"], output := ["root"] },
   anchorNode,
   { name := "add_top", op_type := "Add",
     input := ["mm_top_out", "b0"], output := ["add_top_out"] },
   { name := "mm_top", op_type := "MatMul",
     input := ["reshape_qkv_out", "w_top"], output := ["mm_top_out"] },
   { name := "reshape_qkv", op_type := "Reshape",
     input := ["transpose_qkv_out", "shape_qkv"], output := ["reshape_qkv_out"] },
   { name := "transpose_qkv", op_type := "Transpose",
     input := ["reshape2_out"], output := ["transpose_qkv_out"] },
   { name := "reshape2", op_type := "Reshape",
     input := ["matmul_qkv_out", "shape2"], output := ["reshape2_out"] },
   { name := "matmul_qkv", op_type := "MatMul",
     input := ["softmax_out", "v_reshape_out"], output := ["matmul_qkv_out"] },
   { name := "v_reshape", op_type := "Reshape",
     input := ["v_transpose_out", "shape_v"], output := ["v_reshape_out"] },
   { name := "v_transpose", op_type := "Transpose",
     input := ["v_reshape2_out"], output := ["v_transpose_out"] },
   { name := "v_reshape2", op_type := "Reshape",
     input := ["v_add_out", "shape_v2"], output := ["v_reshape2_out"] },
   { name := "add_v", op_type := "Add",
     input := ["v_mm_out", "v_b"], output := ["v_add_out"] },
   { name := "matmul_v", op_type := "MatMul",
     input := ["root", "v_w"], output := ["v_mm_out"] },
   { name := "softmax", op_type := "Softmax",
     input := ["qk_reshape_out"], output := ["softmax_out"] },
   { name := "qk_reshape", op_type := "Reshape",
     input := ["add_mask_out", "shape_qk"], output := ["qk_reshape_out"] },
   { name := "add_mask", op_type := "Add",
     input := ["qk_reshape2_out", maskEdge], output := ["add_mask_out"] },
   { name := "qk_reshape2", op_type := "Reshape",
     input := ["matmul_qk_out", "shape_qk2"], output := ["qk_reshape2_out"] },
   { name := "matmul_qk", op_type := "MatMul",
     input := ["q_reshape_out", "k_transpose_out"], output := ["matmul_qk_out"] },
   { name := "q_reshape", op_type := "Reshape",
     input := ["q_transpose_out", "shape_q1"], output := ["q_reshape_out"] },
   { name := "q_transpose", op_type := "Transpose",
     input := ["reshape_q_out"], output := ["q_transpose_out"] },
   { name := "reshape_q", op_type := "Reshape",
     input := ["q_mul_out", "shape_q"], output := ["reshape_q_out"] },
   { name := "mul_q", op_type := "Mul",
     input := ["q_add_out", "mulc"], output := ["q_mul_out"] },
   { name := "add_q", op_type := "Add",
     input := ["q_mm_out", "q_b"], output := ["q_add_out"] },
   { name := "matmul_q", op_type := "MatMul",
     input := ["root", "q_w"], output := ["q_mm_out"] },
   { name := "k_transpose", op_type := "Transpose",
     input := ["k_reshape_out"], output := ["k_transpose_out"] },
   { name := "k_reshape", op_type := "Reshape",
     input := ["k_transpose2_out", "shape_k1"], output := ["k_reshape_out"] },
   { name := "k_transpose2", op_type := "Transpose",
     input := ["k_reshape2_out"], output := ["k_transpose2_out"] },
   { name := "k_reshape2", op_type := "Reshape",
     input := ["k_add_out", "shape_k2"], output := ["k_reshape2_out"] },
   { name := "add_k", op_type := "Add",
     input := ["k_mm_out", "k_b"], output := ["k_add_out"] },
   { name := "matmul_k", op_type := "MatMul",
     input := [kRoot, "k_w"], output := ["k_mm_out"] },
   { name := "concat_m", op_type := "Concat",
     input := ["expand_out", "ones"], output := ["mask_concat_out"] },
   { name := "expand", op_type := "Expand",
     input := ["unsq1_out", "eshape"], output := ["expand_out"] },
   { name := "unsq1", op_type := "Unsqueeze",
     input := ["unsq2_out"], output := ["unsq1_out"] },
   { name := "unsq2", op_type := "Unsqueeze",
     input := ["where_out"], output := ["unsq2_out"] },
   { name := "where_n", op_type := "Where",
     input := ["less_out", "wa", "wb"], output := ["where_out"] },
   { name := "less", op_type := "Less",
     input := ["la", "lb"], output := ["less_out"] }]

/-- CLIP fixture environment over the given graph variant with hints
(8, 512) and a successful node factory. -/
def clipEnv (kRoot maskEdge : String) : ClipEnv :=
  { g := { nodes := clipNodes kRoot maskEdge, initializers := [], value_info := [] },
    gcv := fun _ => none,
    firstLNChild := fun _ => none,
    can_create := true,
    attn_name := "attn_fused",
    num_heads := 8,
    hidden_size := 512,
    this_graph_name := "g0" }

/-- Fully matching variant. -/
def envGood : ClipEnv := clipEnv "root" "mask_concat_out"

/-- Variant whose k branch traces to a different root edge. -/
def envBadRoot : ClipEnv := clipEnv "other" "mask_concat_out"

/-- Variant whose causal-mask edge has no producer (both mask chains fail). -/
def envBadMask : ClipEnv := clipEnv "root" "nomask"

/-- Match result of the fully matching variant. -/
def mGood : ClipMatch := (clipMatchChains envGood anchorNode).getD default

/-- Match result of the bad-root variant. -/
def mBadRoot : ClipMatch := (clipMatchChains envBadRoot anchorNode).getD default

/-- Match result of the masked-out variant. -/
def mBadMask : ClipMatch := (clipMatchChains envBadMask anchorNode).getD default

/-- The node queued by the fully matching fuse run. -/
def ndGood : Node :=
  ((FusionAttentionClip_fuse envGood initState anchorNode).2.nodes_to_add).getD 0 default

/-- Primary causal-mask chain of the fully matching variant. -/
def maskChainGood : List Node × List Nat :=
  (match_parent_path envGood.g mGood.add_mask
    (maskKinds.zip (maskSlots mGood.causal_mask_input_index))).getD ([], [])

/-- Reshape node of the num-heads-detection fixture. -/
def rqNode : Node :=
  { name := "rq", op_type := "Reshape", input := ["x", "shape"], output := ["rq_out"] }

/-- Shape Concat node of the num-heads-detection fixture. -/
def ccNode : Node :=
  { name := "cc", op_type := "Concat", input := ["a", "b", "c", "d"],
    output := ["shape"] }

/-- Environment of the num-heads-detection fixture: the shape Concat
resolves to num_heads 4 and head_size 64 while the hint says 8 heads. -/
def envC9 : ClipEnv :=
  { g := { nodes := [rqNode, ccNode], initializers := [], value_info := [] },
    gcv := fun s => if s = "c" then some [4] else if s = "d" then some [64] else none,
    firstLNChild := fun _ => none,
    can_create := false,
    attn_name := "",
    num_heads := 8,
    hidden_size := 256,
    this_graph_name := "g0" }

/-- Slot-0 SkipLayerNormalization parent of the double-parent fixture. -/
def sln0 : Node :=
  { name := "p0", op_type := "SkipLayerNormalization", input := ["u0"], output := ["e0"] }

/-- Slot-1 SkipLayerNormalization parent of the double-parent fixture. -/
def sln1 : Node :=
  { name := "p1", op_type := "SkipLayerNormalization", input := ["u1"], output := ["e1"] }

/-- Anchor with SkipLayerNormalization producers at both input slots. -/
def anchor10 : Node :=
  { name := "a10", op_type := "SkipLayerNormalization",
    input := ["e0", "e1"], output := ["a10_out"] }

/-- Environment of the double-parent fixture. -/
def envC10 : ClipEnv :=
  { g := { nodes := [sln0, sln1, anchor10], initializers := [], value_info := [] },
    gcv := fun _ => none, firstLNChild := fun _ => none,
    can_create := false, attn_name := "", num_heads := 1, hidden_size := 1,
    this_graph_name := "g0" }

/-- CausalLMHead anchor node with two distinct inputs. -/
def lmHeadNode : Node :=
  { name := "lmh",
    op_type := "model_modeling_mixformer_sequential_CausalLMHead_layers__1_1",
    input := ["a", "b"], output := ["o"] }

/-- Graph holding the CausalLMHead anchor. -/
def gPhi : Graph := { nodes := [lmHeadNode], initializers := [], value_info := [] }

/-- A Phi transformer-block node for layer 1 (16 inputs, 2 outputs). -/
def phiBlockNode : Node :=
  { name := "blk1", op_type := phiFuncName 0,
    input := ["hs_in", "mask", "unused2", "kv_in", "lnw", "lnb", "wqkv", "bqkv",
              "u8", "u9", "wout", "bout", "wfc1", "bfc1", "wfc2", "bfc2"],
    output := ["kv_out", "hs_out"] }

/-- Trivial QNN environment: all fusions report no change, sorting is the
identity. -/
def trivQnnEnv : QnnEnv :=
  { gelu := fun m => (m, false), lpnorm := fun m => (m, false),
    layernorm := fun m => (m, false), topo_sort := fun m => m }

/-- A model with one named node and default-domain opset 11. -/
def mOpset11 : QnnModel :=
  { nodes := [{ name := "n1", op_type := "Relu", input := ["x"], output := ["y"] }],
    opset_import := [{ domain := "", version := 11 }] }

/-- A model with one named node and default-domain opset 17. -/
def mOpset17 : QnnModel :=
  { nodes := [{ name := "n1", op_type := "Relu", input := ["x"], output := ["y"] }],
    opset_import := [{ domain := "", version := 17 }] }

/-- A model whose only node is an unnamed Constant. -/
def mConstUnnamed : QnnModel :=
  { nodes := [{ name := "", op_type := "Constant", input := [], output := ["c"] }],
    opset_import := [{ domain := "", version := 13 }] }

/-- Named node carrying an existing auto-style name with suffix 3. -/
def mrN0 : Node :=
  { name := "qnn_preproc_node_3", op_type := "Relu", input := ["x"], output := ["y"] }

/-- An unnamed Relu node. -/
def mrN1 : Node :=
  { name := "", op_type := "Relu", input := ["y"], output := ["z"] }

/-- A model with an existing auto-style name of suffix 3 and one unnamed
Relu node. -/
def mRename : QnnModel :=
  { nodes := [mrN0, mrN1],
    opset_import := [{ domain := "", version := 13 }] }

/-- Result of the no-op run on the opset-11 model. -/
def qnnR0 : QnnResult :=
  (qnn_preprocess_model trivQnnEnv mOpset11 false).getD ⟨false, none, [], []⟩

/-- Result of the renaming run on the model with an unnamed Relu node. -/
def qnnR1 : QnnResult :=
  (qnn_preprocess_model trivQnnEnv mRename false).getD ⟨false, none, [], []⟩

/-!
## Helper lemmas
-/

/-- The num_heads warning step never touches the pending edit set. -/
theorem editParts_warnNumHeads (env : ClipEnv) (d : Int) (st : FusionState) :
    editParts (warnNumHeads env d st) = editParts st := by
  unfold warnNumHeads
  repeat' split
  all_goals rfl

/-- The hidden_size warning step never touches the pending edit set. -/
theorem editParts_warnHiddenSize (env : ClipEnv) (d : Int) (st : FusionState) :
    editParts (warnHiddenSize env d st) = editParts st := by
  unfold warnHiddenSize
  repeat' split
  all_goals rfl

/-- The function `get_num_heads_and_hidden_size` never touches the pending edit set:
only the warn-once flags and the warning log may change. -/
theorem editParts_gnh (env : ClipEnv) (st : FusionState) (rq : Node) :
    editParts (get_num_heads_and_hidden_size env st rq).2 = editParts st := by
  unfold get_num_heads_and_hidden_size
  repeat' split
  all_goals simp [editParts_warnNumHeads, editParts_warnHiddenSize]

/-- The function `get_num_heads_and_hidden_size` preserves `nodes_to_add`. -/
theorem nta_gnh (env : ClipEnv) (st : FusionState) (rq : Node) :
    (get_num_heads_and_hidden_size env st rq).2.nodes_to_add = st.nodes_to_add :=
  congrArg (fun t => t.1) (editParts_gnh env st rq)

/-!
## Claim theorems
-/

/-- C4: `FusionAttentionClip.get_num_heads_and_hidden_size` returns the
caller-supplied defaults whenever the Concat parent at input slot 1 is
absent or does not have exactly 4 inputs, or either `concat.input[2]` or
`concat.input[3]` fails constant resolution, is not a single-element
value, or is not positive; otherwise it returns
`(num_heads, num_heads * head_size)` computed from the two resolved
constants (`claim_num_heads_hidden` states the claim verbatim). -/
theorem claim4_num_heads_fallback (env : ClipEnv) (st : FusionState) (rq : Node) :
    (get_num_heads_and_hidden_size env st rq).1 = claim_num_heads_hidden env rq := by
  unfold get_num_heads_and_hidden_size claim_num_heads_hidden
  cases hc : matchParent env.g rq "Concat" 1 with
  | none => rfl
  | some concat =>
    dsimp only
    by_cases hlen : concat.input.length = 4
    case neg =>
      rw [if_pos (by omega : concat.input.length ≠ 4), if_neg hlen]
    case pos =>
      rw [if_neg (by omega : ¬concat.input.length ≠ 4), if_pos hlen]
      cases h2 : env.gcv (concat.input.getD 2 "") with
      | none => rfl
      | some v2 =>
        dsimp only
        cases h3 : env.gcv (concat.input.getD 3 "") with
        | none =>
          dsimp only
          by_cases hv2 : v2.length ≠ 1 ∨ v2.getD 0 0 ≤ 0
          · rw [if_pos hv2]
          · rw [if_neg hv2]
        | some v3 =>
          dsimp only
          by_cases hv2 : v2.length ≠ 1 ∨ v2.getD 0 0 ≤ 0
          · rw [if_pos hv2, if_neg (fun h => by
              rcases hv2 with h1 | h1
              · exact h1 h.1
              · omega)]
          · rw [if_neg hv2]
            by_cases hv3 : v3.length ≠ 1 ∨ v3.getD 0 0 ≤ 0
            · rw [if_pos hv3, if_neg (fun h => by
                rcases hv3 with h1 | h1
                · exact h1 h.2.2.1
                · omega)]
            · push_neg at hv2 hv3
              rw [if_neg (by omega : ¬(v3.length ≠ 1 ∨ v3.getD 0 0 ≤ 0)),
                  if_pos ⟨hv2.1, by omega, hv3.1, by omega⟩]

/-- C3: if the three matched branch endpoints `matmul_q`, `matmul_k`,
`matmul_v` do not all have the matched root edge as input 0, the match is
aborted: `fuse` returns with the graph and the whole pass state (hence the
pending edit set) unchanged. -/
theorem claim3_shared_root_abort (env : ClipEnv) (st : FusionState) (nrm : Node)
    (m : ClipMatch) (hm : clipMatchChains env nrm = some m)
    (hroot : ¬(m.matmul_q.input.getD 0 "" = m.root_input ∧
               m.matmul_k.input.getD 0 "" = m.root_input ∧
               m.matmul_v.input.getD 0 "" = m.root_input)) :
    FusionAttentionClip_fuse env st nrm = (env.g, st) := by
  unfold FusionAttentionClip_fuse
  rw [hm]
  simp only [if_neg hroot]

/-- C3 witness: on the fixture whose k branch traces to a different root
edge, all five chains match yet fuse aborts with no state change. -/
theorem claim3_witness :
    clipMatchChains envBadRoot anchorNode = some mBadRoot ∧
    ¬(mBadRoot.matmul_q.input.getD 0 "" = mBadRoot.root_input ∧
      mBadRoot.matmul_k.input.getD 0 "" = mBadRoot.root_input ∧
      mBadRoot.matmul_v.input.getD 0 "" = mBadRoot.root_input) ∧
    FusionAttentionClip_fuse envBadRoot initState anchorNode = (envBadRoot.g, initState) :=
  ⟨rfl, by decide,
   claim3_shared_root_abort envBadRoot initState anchorNode mBadRoot rfl (by decide)⟩

/-- C10: when the anchor has SkipLayerNormalization producers at both
input slots, slot 0 wins (the `for i in [1, 0]` loop checks index 1 then
index 0 without breaking), the root edge is the slot-0 parent's first
output, and the qkv chain is then matched through input slot 1 of the
anchor (`qkvSlots 0` starts with `some 1`). -/
theorem claim10_slot_zero_wins (env : ClipEnv) (nrm p0 p1 : Node)
    (h0 : matchParent env.g nrm "SkipLayerNormalization" 0 = some p0)
    (h1 : matchParent env.g nrm "SkipLayerNormalization" 1 = some p1) :
    clipRootSel env nrm = some (0, p0.output.getD 0 "") ∧
    clipMatchChains env nrm = clipMatchFrom env nrm 0 (p0.output.getD 0 "") ∧
    qkvSlots 0 = [some 1, none, none, some 0, some 0, some 0] := by
  have hsel : clipRootSel env nrm = some (0, p0.output.getD 0 "") := by
    unfold clipRootSel
    simp [h0, h1]
  refine ⟨hsel, ?_, rfl⟩
  unfold clipMatchChains
  rw [hsel]

/-- C10 witness: fixture with SkipLayerNormalization parents at both
slots; slot 0 is selected and its output becomes the root edge. -/
theorem claim10_witness :
    matchParent envC10.g anchor10 "SkipLayerNormalization" 0 = some sln0 ∧
    matchParent envC10.g anchor10 "SkipLayerNormalization" 1 = some sln1 ∧
    clipRootSel envC10 anchor10 = some (0, "e0") :=
  ⟨rfl, rfl, (claim10_slot_zero_wins envC10 anchor10 sln0 sln1 rfl rfl).1⟩

/-- Queueing nodes appends them to `nodes_to_add` in order. -/
theorem queueNodes_nta (gname : String) (st : FusionState) (ns : List Node) :
    (queueNodes gname st ns).nodes_to_add = st.nodes_to_add ++ ns := by
  induction ns generalizing st with
  | nil => simp [queueNodes]
  | cons n t ih =>
    simp only [queueNodes, List.foldl_cons] at *
    rw [ih]
    simp

/-- Shape of `FusionAttentionClip.fuse`'s effect on `nodes_to_add`: either
unchanged, or exactly one Attention node wired to the matched root edge
and to `reshape_qkv`'s first output is appended. -/
theorem fuse_nta_shape (env : ClipEnv) (st : FusionState) (nrm : Node) :
    (FusionAttentionClip_fuse env st nrm).2.nodes_to_add = st.nodes_to_add ∨
    (∃ m, clipMatchChains env nrm = some m ∧
      (FusionAttentionClip_fuse env st nrm).2.nodes_to_add = st.nodes_to_add ++
        [{ name := env.attn_name, op_type := "Attention",
           input := [m.root_input],
           output := [m.reshape_qkv.output.getD 0 ""] }]) := by
  unfold FusionAttentionClip_fuse
  cases hm : clipMatchChains env nrm with
  | none => exact Or.inl rfl
  | some m =>
    dsimp only
    by_cases hroot : (m.matmul_q.input.getD 0 "" = m.root_input ∧
        m.matmul_k.input.getD 0 "" = m.root_input ∧
        m.matmul_v.input.getD 0 "" = m.root_input)
    case neg => rw [if_neg hroot]; exact Or.inl rfl
    case pos =>
      rw [if_pos hroot]
      by_cases hsz : ((get_num_heads_and_hidden_size env st m.reshape_q).1.1 ≤ 0 ∨
          (get_num_heads_and_hidden_size env st m.reshape_q).1.2 ≤ 0)
      case pos => rw [if_pos hsz]; exact Or.inl (nta_gnh env st m.reshape_q)
      case neg =>
        rw [if_neg hsz]
        cases hcm : clipCausalMask env m.add_mask m.causal_mask_input_index with
        | none => exact Or.inl (nta_gnh env st m.reshape_q)
        | some r =>
          unfold create_attention_node
          cases hcc : env.can_create with
          | false => simp only [Bool.false_eq_true, if_false]
                     exact Or.inl (nta_gnh env st m.reshape_q)
          | true =>
            simp only [if_true]
            refine Or.inr ⟨m, rfl, ?_⟩
            dsimp only
            rw [nta_gnh env st m.reshape_q]

/-- C2: whenever `FusionAttentionClip.fuse` queues a replacement node, its
output edge name is the matched `reshape_qkv` node's first output and its
input is the matched root edge; and the final replacement node queued by
the Phi fission pass is `Residual_Add_2`, whose output is the original
block node's hidden-state output (`node.output[1]`) — downstream consumers
need no rewiring in either case. -/
theorem claim2_output_wiring :
    (∀ env st nrm m nd, clipMatchChains env nrm = some m →
       (FusionAttentionClip_fuse env st nrm).2.nodes_to_add = st.nodes_to_add ++ [nd] →
       nd.output = [m.reshape_qkv.output.getD 0 ""] ∧ nd.input = [m.root_input]) ∧
    (∀ gname g st node,
       ((fuse_with_attn gname g st node).2.nodes_to_add).getLast? =
         some { name := uname (get_layer_id node) "Residual_Add_2", op_type := "Add",
                input := [if get_layer_id node = 1 then node.input.getD 0 ""
                            else node.input.getD 2 "",
                          uname (get_layer_id node) "residual_1_out"],
                output := [node.output.getD 1 ""] }) := by
  constructor
  · intro env st nrm m nd hm hadd
    rcases fuse_nta_shape env st nrm with hsh | ⟨m', hm', hsh⟩
    · rw [hsh] at hadd
      exact absurd hadd (by simp)
    · rw [hm'] at hm
      injection hm with hm
      subst hm
      rw [hsh] at hadd
      have h2 := List.append_cancel_left hadd
      injection h2 with h2 _
      rw [← h2]
      exact ⟨rfl, rfl⟩
  · intro gname g st node
    unfold fuse_with_attn
    dsimp only
    rw [queueNodes_nta]
    rw [List.getLast?_append_of_ne_nil _ (by simp [phiSubgraphNodes])]
    rfl

/-- C2 witness: the fully matching CLIP fixture queues exactly one node,
wired to the original subgraph's final output edge and to the root edge. -/
theorem claim2_witness :
    clipMatchChains envGood anchorNode = some mGood ∧
    (FusionAttentionClip_fuse envGood initState anchorNode).2.nodes_to_add =
      initState.nodes_to_add ++ [ndGood] ∧
    ndGood.output = [mGood.reshape_qkv.output.getD 0 ""] ∧
    ndGood.input = [mGood.root_input] :=
  ⟨rfl, rfl,
   (claim2_output_wiring.1 envGood initState anchorNode mGood ndGood rfl rfl).1,
   (claim2_output_wiring.1 envGood initState anchorNode mGood ndGood rfl rfl).2⟩

/-- C8: the causal-mask check tries the primary chain
(Concat-Expand-Unsqueeze-Unsqueeze-Where-Less) first and the fallback
chain (without the leading Concat) only if the primary fails; when the
primary succeeds its result is used (the fallback is never consulted),
and when both fail the anchor is skipped with no edits queued. -/
theorem claim8_mask_fallback_order :
    (∀ env (am : Node) (cmi : Nat) r,
       match_parent_path env.g am (maskKinds.zip (maskSlots cmi)) = some r →
       clipCausalMask env am cmi = some r.1) ∧
    (∀ env (am : Node) (cmi : Nat),
       match_parent_path env.g am (maskKinds.zip (maskSlots cmi)) = none →
       clipCausalMask env am cmi =
         (match_parent_path env.g am (maskFbKinds.zip (maskFbSlots cmi))).map Prod.fst) ∧
    (∀ env st nrm m, clipMatchChains env nrm = some m →
       clipCausalMask env m.add_mask m.causal_mask_input_index = none →
       editParts (FusionAttentionClip_fuse env st nrm).2 = editParts st) := by
  refine ⟨?_, ?_, ?_⟩
  · intro env am cmi r h
    unfold clipCausalMask
    rw [h]
  · intro env am cmi h
    unfold clipCausalMask
    rw [h]
  · intro env st nrm m hm hmask
    unfold FusionAttentionClip_fuse
    rw [hm]
    dsimp only
    by_cases hroot : (m.matmul_q.input.getD 0 "" = m.root_input ∧
        m.matmul_k.input.getD 0 "" = m.root_input ∧
        m.matmul_v.input.getD 0 "" = m.root_input)
    case neg => rw [if_neg hroot]
    case pos =>
      rw [if_pos hroot]
      by_cases hsz : ((get_num_heads_and_hidden_size env st m.reshape_q).1.1 ≤ 0 ∨
          (get_num_heads_and_hidden_size env st m.reshape_q).1.2 ≤ 0)
      case pos => rw [if_pos hsz]; exact editParts_gnh env st m.reshape_q
      case neg =>
        rw [if_neg hsz, hmask]
        exact editParts_gnh env st m.reshape_q

/-- C8 witness: primary chain succeeding on the matching fixture, both
chains failing on the masked-out fixture, and the resulting no-edit skip. -/
theorem claim8_witness :
    match_parent_path envGood.g mGood.add_mask
      (maskKinds.zip (maskSlots mGood.causal_mask_input_index)) = some maskChainGood ∧
    clipCausalMask envGood mGood.add_mask mGood.causal_mask_input_index =
      some maskChainGood.1 ∧
    match_parent_path envBadMask.g mBadMask.add_mask
      (maskKinds.zip (maskSlots mBadMask.causal_mask_input_index)) = none ∧
    clipCausalMask envBadMask mBadMask.add_mask mBadMask.causal_mask_input_index =
      (match_parent_path envBadMask.g mBadMask.add_mask
        (maskFbKinds.zip (maskFbSlots mBadMask.causal_mask_input_index))).map Prod.fst ∧
    clipMatchChains envBadMask anchorNode = some mBadMask ∧
    editParts (FusionAttentionClip_fuse envBadMask initState anchorNode).2 =
      editParts initState :=
  ⟨rfl,
   claim8_mask_fallback_order.1 envGood mGood.add_mask mGood.causal_mask_input_index
     maskChainGood rfl,
   rfl,
   claim8_mask_fallback_order.2.1 envBadMask mBadMask.add_mask
     mBadMask.causal_mask_input_index rfl,
   rfl,
   claim8_mask_fallback_order.2.2 envBadMask initState anchorNode mBadMask rfl rfl⟩


/-- A list map that returns the list unchanged fixes every element. -/
theorem map_eq_self_of_mem {α : Type} (f : α → α) :
    ∀ (l : List α), l.map f = l → ∀ x ∈ l, f x = x := by
  intro l h x hx
  induction l with
  | nil => cases hx
  | cons a t ih =>
    simp only [List.map_cons, List.cons.injEq] at h
    rcases List.mem_cons.mp hx with rfl | hx2
    · exact h.1
    · exact ih h.2 hx2

/-- C1 counterexample: two Phi fuse steps that do mutate graph state —
`PostProcessCausalLMHead.fuse` rewrites the anchor node's input list in
place, and `FissionTransformerBlockPhi.fuse_with_attn` adds initializers
and value_info entries to the graph. -/
theorem claim1_counterexample :
    (postProcessCausalLMHead_fuse gPhi initState lmHeadNode).1 ≠ gPhi ∧
    (fuse_with_attn "g0" gPhi initState phiBlockNode).1 ≠ gPhi :=
  ⟨by decide, by decide⟩

/-- C1 (amended): `FusionAttentionClip.fuse` writes only the pending edit
set (the graph is returned unchanged on every path), but the Phi passes do
write graph state during the fuse step: `process_initializer` appends a
new initializer to the graph, and `PostProcessCausalLMHead.fuse` rewrites
the anchor node's input slot 0 in place (changing the graph whenever the
two inputs differ). -/
theorem claim1_amended_frame :
    (∀ env st nrm, (FusionAttentionClip_fuse env st nrm).1 = env.g) ∧
    (∀ g name, (process_initializer g name).1.initializers =
       g.initializers ++ [name ++ "_processed"]) ∧
    (∀ g st node, node ∈ g.nodes →
       node.input.getD 0 "" ≠ node.input.getD 1 "" →
       (postProcessCausalLMHead_fuse g st node).1 ≠ g) := by
  refine ⟨?_, fun g name => rfl, ?_⟩
  · intro env st nrm
    unfold FusionAttentionClip_fuse
    dsimp only
    repeat' split
    all_goals rfl
  · intro g st node hmem hne heq
    unfold postProcessCausalLMHead_fuse at heq
    have hn := congrArg Graph.nodes heq
    dsimp only at hn
    have hfn := map_eq_self_of_mem _ _ hn node hmem
    rw [if_pos rfl] at hfn
    have hinp := congrArg Node.input hfn
    dsimp only at hinp
    cases hni : node.input with
    | nil =>
      apply hne
      rw [hni]
      rfl
    | cons a t =>
      rw [hni] at hinp
      have hva : (a :: t).getD 1 "" = a := by
        have h' : ((a :: t).getD 1 "") :: t = a :: t := hinp
        injection h'
      apply hne
      rw [hni]
      simpa using hva.symm

/-- C1 witness: the CausalLMHead fixture node has two distinct inputs and
its graph is mutated by the post-process fuse step. -/
theorem claim1_witness :
    lmHeadNode ∈ gPhi.nodes ∧
    lmHeadNode.input.getD 0 "" ≠ lmHeadNode.input.getD 1 "" ∧
    (postProcessCausalLMHead_fuse gPhi initState lmHeadNode).1 ≠ gPhi :=
  ⟨by decide, by decide,
   claim1_amended_frame.2.2 gPhi initState lmHeadNode (by decide) (by decide)⟩

/-- One num_heads warning step either leaves the num_heads warning count
and flag unchanged, or (armed flag) logs exactly one warning and disarms. -/
theorem warnNumHeads_nh_step (env : ClipEnv) (d : Int) (st : FusionState) :
    ((warnNumHeads env d st).warnings.count numHeadsWarnMsg =
        st.warnings.count numHeadsWarnMsg ∧
     (warnNumHeads env d st).num_heads_warning = st.num_heads_warning) ∨
    (st.num_heads_warning = true ∧ (warnNumHeads env d st).num_heads_warning = false ∧
     (warnNumHeads env d st).warnings.count numHeadsWarnMsg =
       st.warnings.count numHeadsWarnMsg + 1) := by
  unfold warnNumHeads
  repeat' split
  case isTrue h hw => exact Or.inr ⟨hw, rfl, by simp [List.count_append]⟩
  all_goals exact Or.inl ⟨rfl, rfl⟩

/-- The hidden_size warning step never touches the num_heads warning
count or flag. -/
theorem warnHiddenSize_nh_frame (env : ClipEnv) (d : Int) (st : FusionState) :
    (warnHiddenSize env d st).warnings.count numHeadsWarnMsg =
      st.warnings.count numHeadsWarnMsg ∧
    (warnHiddenSize env d st).num_heads_warning = st.num_heads_warning := by
  unfold warnHiddenSize
  repeat' split
  all_goals refine ⟨?_, rfl⟩
  all_goals simp [List.count_append]
  all_goals decide

/-- One hidden_size warning step either leaves the hidden_size warning
count and flag unchanged, or (armed flag) logs exactly one and disarms. -/
theorem warnHiddenSize_hs_step (env : ClipEnv) (d : Int) (st : FusionState) :
    ((warnHiddenSize env d st).warnings.count hiddenSizeWarnMsg =
        st.warnings.count hiddenSizeWarnMsg ∧
     (warnHiddenSize env d st).hidden_size_warning = st.hidden_size_warning) ∨
    (st.hidden_size_warning = true ∧ (warnHiddenSize env d st).hidden_size_warning = false ∧
     (warnHiddenSize env d st).warnings.count hiddenSizeWarnMsg =
       st.warnings.count hiddenSizeWarnMsg + 1) := by
  unfold warnHiddenSize
  repeat' split
  case isTrue h hw => exact Or.inr ⟨hw, rfl, by simp [List.count_append]⟩
  all_goals exact Or.inl ⟨rfl, rfl⟩

/-- The num_heads warning step never touches the hidden_size warning
count or flag. -/
theorem warnNumHeads_hs_frame (env : ClipEnv) (d : Int) (st : FusionState) :
    (warnNumHeads env d st).warnings.count hiddenSizeWarnMsg =
      st.warnings.count hiddenSizeWarnMsg ∧
    (warnNumHeads env d st).hidden_size_warning = st.hidden_size_warning := by
  unfold warnNumHeads
  repeat' split
  all_goals refine ⟨?_, rfl⟩
  all_goals simp [List.count_append]
  all_goals decide

/-- Effect of one `get_num_heads_and_hidden_size` call on the num_heads
warning count and flag: unchanged, or one warning logged while disarming
an armed flag. -/
theorem gnh_nh_step (env : ClipEnv) (st : FusionState) (rq : Node) :
    ((get_num_heads_and_hidden_size env st rq).2.warnings.count numHeadsWarnMsg =
        st.warnings.count numHeadsWarnMsg ∧
     (get_num_heads_and_hidden_size env st rq).2.num_heads_warning =
        st.num_heads_warning) ∨
    (st.num_heads_warning = true ∧
     (get_num_heads_and_hidden_size env st rq).2.num_heads_warning = false ∧
     (get_num_heads_and_hidden_size env st rq).2.warnings.count numHeadsWarnMsg =
       st.warnings.count numHeadsWarnMsg + 1) := by
  unfold get_num_heads_and_hidden_size
  repeat' split
  all_goals try exact Or.inl ⟨rfl, rfl⟩
  dsimp only
  rcases warnNumHeads_nh_step env _ st with ⟨hc, hf⟩ | ⟨h1, h2, h3⟩
  · exact Or.inl ⟨(warnHiddenSize_nh_frame env _ _).1.trans hc,
      (warnHiddenSize_nh_frame env _ _).2.trans hf⟩
  · exact Or.inr ⟨h1, (warnHiddenSize_nh_frame env _ _).2.trans h2,
      (warnHiddenSize_nh_frame env _ _).1.trans h3⟩

/-- Effect of one `get_num_heads_and_hidden_size` call on the hidden_size
warning count and flag. -/
theorem gnh_hs_step (env : ClipEnv) (st : FusionState) (rq : Node) :
    ((get_num_heads_and_hidden_size env st rq).2.warnings.count hiddenSizeWarnMsg =
        st.warnings.count hiddenSizeWarnMsg ∧
     (get_num_heads_and_hidden_size env st rq).2.hidden_size_warning =
        st.hidden_size_warning) ∨
    (st.hidden_size_warning = true ∧
     (get_num_heads_and_hidden_size env st rq).2.hidden_size_warning = false ∧
     (get_num_heads_and_hidden_size env st rq).2.warnings.count hiddenSizeWarnMsg =
       st.warnings.count hiddenSizeWarnMsg + 1) := by
  unfold get_num_heads_and_hidden_size
  repeat' split
  all_goals try exact Or.inl ⟨rfl, rfl⟩
  dsimp only
  rcases warnHiddenSize_hs_step env _ (warnNumHeads env _ st) with ⟨hc, hf⟩ | ⟨h1, h2, h3⟩
  · exact Or.inl ⟨hc.trans (warnNumHeads_hs_frame env _ st).1,
      hf.trans (warnNumHeads_hs_frame env _ st).2⟩
  · exact Or.inr ⟨(warnNumHeads_hs_frame env _ st).2.symm.trans h1, h2,
      by rw [h3, (warnNumHeads_hs_frame env _ st).1]⟩

/-- Invariant of call sequences: if an armed num_heads flag implies zero
warnings so far, and at most one was logged, both facts persist. -/
theorem runCalls_nh_inv (calls : List (ClipEnv × Node)) :
    ∀ st0, (st0.num_heads_warning = true → st0.warnings.count numHeadsWarnMsg = 0) →
    st0.warnings.count numHeadsWarnMsg ≤ 1 →
    ((runNumHeadsCalls st0 calls).num_heads_warning = true →
      (runNumHeadsCalls st0 calls).warnings.count numHeadsWarnMsg = 0) ∧
    (runNumHeadsCalls st0 calls).warnings.count numHeadsWarnMsg ≤ 1 := by
  induction calls with
  | nil => intro st0 h1 h2; exact ⟨h1, h2⟩
  | cons c rest ih =>
    intro st0 h1 h2
    simp only [runNumHeadsCalls]
    apply ih
    · intro hf
      rcases gnh_nh_step c.1 st0 c.2 with ⟨hc, hfl⟩ | ⟨ha, hb, hc⟩
      · rw [hc]; exact h1 (hfl ▸ hf)
      · rw [hb] at hf; cases hf
    · rcases gnh_nh_step c.1 st0 c.2 with ⟨hc, hfl⟩ | ⟨ha, hb, hc⟩
      · rw [hc]; exact h2
      · rw [hc, h1 ha]

/-- Invariant of call sequences for the hidden_size warning. -/
theorem runCalls_hs_inv (calls : List (ClipEnv × Node)) :
    ∀ st0, (st0.hidden_size_warning = true → st0.warnings.count hiddenSizeWarnMsg = 0) →
    st0.warnings.count hiddenSizeWarnMsg ≤ 1 →
    ((runNumHeadsCalls st0 calls).hidden_size_warning = true →
      (runNumHeadsCalls st0 calls).warnings.count hiddenSizeWarnMsg = 0) ∧
    (runNumHeadsCalls st0 calls).warnings.count hiddenSizeWarnMsg ≤ 1 := by
  induction calls with
  | nil => intro st0 h1 h2; exact ⟨h1, h2⟩
  | cons c rest ih =>
    intro st0 h1 h2
    simp only [runNumHeadsCalls]
    apply ih
    · intro hf
      rcases gnh_hs_step c.1 st0 c.2 with ⟨hc, hfl⟩ | ⟨ha, hb, hc⟩
      · rw [hc]; exact h1 (hfl ▸ hf)
      · rw [hb] at hf; cases hf
    · rcases gnh_hs_step c.1 st0 c.2 with ⟨hc, hfl⟩ | ⟨ha, hb, hc⟩
      · rw [hc]; exact h2
      · rw [hc, h1 ha]

/-- C9: within one pass instance, the num_heads (resp. hidden_size)
hint-conflict warning is emitted at most once over any sequence of
`get_num_heads_and_hidden_size` calls starting from the armed initial
state; and whenever detection succeeds, the detected value — never the
hint — is returned. -/
theorem claim9_warn_once :
    (∀ st0 calls, st0.num_heads_warning = true →
       st0.warnings.count numHeadsWarnMsg = 0 →
       (runNumHeadsCalls st0 calls).warnings.count numHeadsWarnMsg ≤ 1) ∧
    (∀ st0 calls, st0.hidden_size_warning = true →
       st0.warnings.count hiddenSizeWarnMsg = 0 →
       (runNumHeadsCalls st0 calls).warnings.count hiddenSizeWarnMsg ≤ 1) ∧
    (∀ env st rq concat v2 v3,
       matchParent env.g rq "Concat" 1 = some concat →
       concat.input.length = 4 →
       env.gcv (concat.input.getD 2 "") = some v2 →
       env.gcv (concat.input.getD 3 "") = some v3 →
       v2.length = 1 → 0 < v2.getD 0 0 → v3.length = 1 → 0 < v3.getD 0 0 →
       (get_num_heads_and_hidden_size env st rq).1 =
         (v2.getD 0 0, v2.getD 0 0 * v3.getD 0 0)) := by
  refine ⟨?_, ?_, ?_⟩
  · intro st0 calls h1 h2
    exact (runCalls_nh_inv calls st0 (fun _ => h2) (by omega)).2
  · intro st0 calls h1 h2
    exact (runCalls_hs_inv calls st0 (fun _ => h2) (by omega)).2
  · intro env st rq concat v2 v3 hc hlen h2 h3 hl2 hp2 hl3 hp3
    unfold get_num_heads_and_hidden_size
    rw [hc]
    dsimp only
    rw [if_neg (by omega : ¬concat.input.length ≠ 4), h2]
    dsimp only
    rw [if_neg (by rw [not_or]; exact ⟨by omega, by omega⟩ :
          ¬(v2.length ≠ 1 ∨ v2.getD 0 0 ≤ 0)), h3]
    dsimp only
    rw [if_neg (by rw [not_or]; exact ⟨by omega, by omega⟩ :
          ¬(v3.length ≠ 1 ∨ v3.getD 0 0 ≤ 0))]

/-- C9 witness: two consecutive conflicting detections (hint 8, detected
4) log exactly one warning, and the detected pair (4, 256) is returned. -/
theorem claim9_witness :
    initState.num_heads_warning = true ∧
    initState.warnings.count numHeadsWarnMsg = 0 ∧
    (runNumHeadsCalls initState [(envC9, rqNode), (envC9, rqNode)]).warnings.count
      numHeadsWarnMsg ≤ 1 ∧
    matchParent envC9.g rqNode "Concat" 1 = some ccNode ∧
    (get_num_heads_and_hidden_size envC9 initState rqNode).1 = (4, 256) :=
  ⟨rfl, rfl,
   claim9_warn_once.1 initState [(envC9, rqNode), (envC9, rqNode)] rfl rfl,
   rfl,
   claim9_warn_once.2.2 envC9 initState rqNode ccNode [4] [64]
     rfl rfl rfl rfl rfl (by decide) rfl (by decide)⟩

/-- C6: `qnn_preprocess_model` returns `true` exactly when a fusion
applied or a node was renamed; the (sorted) model is written exactly when
that flag is true, and a no-change run returns `false` without writing. -/
theorem claim6_modified_flag :
    ∀ env m0 fl r, qnn_preprocess_model env m0 fl = some r →
      r.saved.isSome = r.ret ∧
      r.ret = ((env.gelu m0).2 || (env.lpnorm (env.gelu m0).1).2 ||
               qnnLnApplied env m0 fl || qnnRenamed env m0 fl) ∧
      (r.ret = false → r.saved = none) := by
  intro env m0 fl r h
  unfold qnn_preprocess_model at h
  cases fl with
  | false =>
    dsimp only at h
    injection h with h
    subst h
    unfold qnnLnApplied qnnRenamed qnnM3 qnnM2
    dsimp only
    refine ⟨?_, ?_, ?_⟩
    · cases hb : ((env.gelu m0).2 || (env.lpnorm (env.gelu m0).1).2 || false ||
          !(renameNodes unnamedNodePfx
            (get_largest_node_name_suffix (env.lpnorm (env.gelu m0).1).1.nodes
              unnamedNodePfx + 1).toNat
            (env.lpnorm (env.gelu m0).1).1.nodes).2.2.isEmpty) <;>
        simp [hb]
    · rfl
    · intro hr
      simp only [hr, if_false]
      rcases hb : ((env.gelu m0).2 || (env.lpnorm (env.gelu m0).1).2 || false ||
          !(renameNodes unnamedNodePfx
            (get_largest_node_name_suffix (env.lpnorm (env.gelu m0).1).1.nodes
              unnamedNodePfx + 1).toNat
            (env.lpnorm (env.gelu m0).1).1.nodes).2.2.isEmpty) with _ | _
      · rfl
      · rw [hb] at hr; cases hr
  | true =>
    dsimp only at h
    rcases hop : defaultOpset (env.lpnorm (env.gelu m0).1).1 with _ | op
    · rw [hop] at h; cases h
    · rw [hop] at h
      dsimp only at h
      by_cases hv : op.version < 17
      · rw [if_pos hv] at h
        injection h with h
        subst h
        unfold qnnLnApplied qnnRenamed qnnM3 qnnM2
        dsimp only
        simp only [hop, if_true]
        simp only [if_pos hv]
        refine ⟨?_, trivial, ?_⟩
        · cases hb : ((env.gelu m0).2 || (env.lpnorm (env.gelu m0).1).2 || false ||
              !(renameNodes unnamedNodePfx
                (get_largest_node_name_suffix (env.lpnorm (env.gelu m0).1).1.nodes
                  unnamedNodePfx + 1).toNat
                (env.lpnorm (env.gelu m0).1).1.nodes).2.2.isEmpty) <;>
            simp [hb]
        · intro hr
          simp only [hr, if_false]
          rcases hb : ((env.gelu m0).2 || (env.lpnorm (env.gelu m0).1).2 || false ||
              !(renameNodes unnamedNodePfx
                (get_largest_node_name_suffix (env.lpnorm (env.gelu m0).1).1.nodes
                  unnamedNodePfx + 1).toNat
                (env.lpnorm (env.gelu m0).1).1.nodes).2.2.isEmpty) with _ | _
          · rfl
          · rw [hb] at hr; cases hr
      · rw [if_neg hv] at h
        injection h with h
        subst h
        unfold qnnLnApplied qnnRenamed qnnM3 qnnM2
        dsimp only
        simp only [hop, if_true]
        simp only [if_neg hv]
        refine ⟨?_, trivial, ?_⟩
        · cases hb : ((env.gelu m0).2 || (env.lpnorm (env.gelu m0).1).2 ||
              (env.layernorm (env.lpnorm (env.gelu m0).1).1).2 ||
              !(renameNodes unnamedNodePfx
                (get_largest_node_name_suffix
                  (env.layernorm (env.lpnorm (env.gelu m0).1).1).1.nodes
                  unnamedNodePfx + 1).toNat
                (env.layernorm (env.lpnorm (env.gelu m0).1).1).1.nodes).2.2.isEmpty) <;>
            simp [hb]
        · intro hr
          simp only [hr, if_false]
          rcases hb : ((env.gelu m0).2 || (env.lpnorm (env.gelu m0).1).2 ||
              (env.layernorm (env.lpnorm (env.gelu m0).1).1).2 ||
              !(renameNodes unnamedNodePfx
                (get_largest_node_name_suffix
                  (env.layernorm (env.lpnorm (env.gelu m0).1).1).1.nodes
                  unnamedNodePfx + 1).toNat
                (env.layernorm (env.lpnorm (env.gelu m0).1).1).1.nodes).2.2.isEmpty) with _ | _
          · rfl
          · rw [hb] at hr; cases hr

/-- C7: with `fuse_layernorm = true` and default-domain opset below 17,
the LayerNormalization fusion is not attempted — only the opset warning is
added — and the run is otherwise identical to `fuse_layernorm = false`
(same flag, same written model, same attempted fusions); with opset at
least 17 the fusion is attempted. -/
theorem claim7_opset_gate :
    ∀ env m0 op, defaultOpset (qnnM2 env m0) = some op →
      (op.version < 17 →
        ∃ r r', qnn_preprocess_model env m0 true = some r ∧
          qnn_preprocess_model env m0 false = some r' ∧
          r.ret = r'.ret ∧ r.saved = r'.saved ∧ r.attempted = r'.attempted ∧
          r.warnings = opsetWarnMsg :: r'.warnings ∧
          "FusionLayerNormalization" ∉ r.attempted) ∧
      (17 ≤ op.version →
        ∃ r, qnn_preprocess_model env m0 true = some r ∧
          "FusionLayerNormalization" ∈ r.attempted) := by
  intro env m0 op hop
  unfold qnnM2 at hop
  constructor
  · intro hv
    unfold qnn_preprocess_model
    dsimp only
    simp only [hop]
    rw [if_pos hv]
    exact ⟨_, _, rfl, rfl, rfl, rfl, rfl, rfl, by simp⟩
  · intro hv
    unfold qnn_preprocess_model
    dsimp only
    simp only [hop]
    rw [if_neg (by omega : ¬op.version < 17)]
    exact ⟨_, rfl, by simp⟩

/-- C6 witness: the renaming run returns `true` and writes, the no-op run
returns `false` and writes nothing. -/
theorem claim6_witness :
    qnn_preprocess_model trivQnnEnv mRename false = some qnnR1 ∧
    (qnnR1.saved.isSome = qnnR1.ret ∧
     qnnR1.ret = ((trivQnnEnv.gelu mRename).2 ||
       (trivQnnEnv.lpnorm (trivQnnEnv.gelu mRename).1).2 ||
       qnnLnApplied trivQnnEnv mRename false || qnnRenamed trivQnnEnv mRename false) ∧
     (qnnR1.ret = false → qnnR1.saved = none)) ∧
    qnnR1.ret = true ∧
    qnn_preprocess_model trivQnnEnv mOpset11 false = some qnnR0 ∧
    qnnR0.ret = false ∧
    qnnR0.saved = none :=
  ⟨rfl, claim6_modified_flag trivQnnEnv mRename false qnnR1 rfl, rfl, rfl, rfl,
   (claim6_modified_flag trivQnnEnv mOpset11 false qnnR0 rfl).2.2 rfl⟩

/-- C7 witness: opset-11 model skips the LayerNormalization fusion and
matches the `fuse_layernorm = false` run up to the warning; opset-17
attempts it. -/
theorem claim7_witness :
    defaultOpset (qnnM2 trivQnnEnv mOpset11) = some { domain := "", version := 11 } ∧
    (∃ r r', qnn_preprocess_model trivQnnEnv mOpset11 true = some r ∧
      qnn_preprocess_model trivQnnEnv mOpset11 false = some r' ∧
      r.ret = r'.ret ∧ r.saved = r'.saved ∧ r.attempted = r'.attempted ∧
      r.warnings = opsetWarnMsg :: r'.warnings ∧
      "FusionLayerNormalization" ∉ r.attempted) ∧
    defaultOpset (qnnM2 trivQnnEnv mOpset17) = some { domain := "", version := 17 } ∧
    (∃ r, qnn_preprocess_model trivQnnEnv mOpset17 true = some r ∧
      "FusionLayerNormalization" ∈ r.attempted) :=
  ⟨rfl,
   (claim7_opset_gate trivQnnEnv mOpset11 { domain := "", version := 11 } rfl).1
     (by decide),
   rfl,
   (claim7_opset_gate trivQnnEnv mOpset17 { domain := "", version := 17 } rfl).2
     (by decide)⟩

/-- The decoder `digitVal` inverts `Nat.digitChar` on decimal digits. -/
theorem digitVal_digitChar (d : Nat) (hd : d < 10) :
    digitVal (Nat.digitChar d) = some d := by
  interval_cases d <;> rfl

/-- Unfolding of `Nat.toDigitsCore` at positive fuel (base 10). -/
theorem toDigitsCore_succ (f n : Nat) (ds : List Char) :
    Nat.toDigitsCore 10 (f + 1) n ds =
      if n / 10 = 0 then Nat.digitChar (n % 10) :: ds
      else Nat.toDigitsCore 10 f (n / 10) (Nat.digitChar (n % 10) :: ds) := by
  simp [Nat.toDigitsCore]

/-- A number below 10 has one decimal digit. -/
theorem decLen_small (n : Nat) (h : n < 10) : decLen n = 1 := by
  unfold decLen
  rw [if_pos h]

/-- Digit count of a number with at least two digits. -/
theorem decLen_big (n : Nat) (h : ¬n < 10) : decLen n = decLen (n / 10) + 1 := by
  conv_lhs => rw [decLen]
  rw [if_neg h]

/-- Decoding the digits emitted by `Nat.toDigitsCore` accumulates the
encoded number (fuel sufficient). -/
theorem decode_toDigitsCore :
    ∀ (f n acc : Nat) (ds : List Char), n < f →
      decodeDigits acc (Nat.toDigitsCore 10 f n ds) =
        decodeDigits (acc * 10 ^ decLen n + n) ds := by
  intro f
  induction f with
  | zero => intro n acc ds h; omega
  | succ f ih =>
    intro n acc ds h
    rw [toDigitsCore_succ]
    by_cases h0 : n / 10 = 0
    · rw [if_pos h0]
      have hn : n < 10 := by omega
      have hdv : digitVal (Nat.digitChar (n % 10)) = some (n % 10) :=
        digitVal_digitChar _ (by omega)
      simp only [decodeDigits, hdv]
      rw [decLen_small n hn, pow_one, Nat.mod_eq_of_lt hn]
    · rw [if_neg h0]
      have hdiv : n / 10 < n := Nat.div_lt_self (by omega) (by omega)
      rw [ih (n / 10) acc (Nat.digitChar (n % 10) :: ds) (by omega)]
      have hdv : digitVal (Nat.digitChar (n % 10)) = some (n % 10) :=
        digitVal_digitChar _ (Nat.mod_lt _ (by omega))
      simp only [decodeDigits, hdv]
      congr 1
      rw [decLen_big n (by omega), pow_succ, ← mul_assoc]
      have hdm := Nat.div_add_mod n 10
      set y := acc * 10 ^ decLen (n / 10)
      omega

/-- The decoder `decodeDigits` inverts `Nat.toDigits` base 10. -/
theorem decode_toDigits (n : Nat) : decodeDigits 0 (Nat.toDigits 10 n) = some n := by
  rw [show Nat.toDigits 10 n = Nat.toDigitsCore 10 (n + 1) n [] from rfl,
     decode_toDigitsCore (n + 1) n 0 [] (Nat.lt_succ_self n)]
  simp [decodeDigits]

/-- The printer `Nat.toDigitsCore` only prepends characters to its accumulator. -/
theorem toDigitsCore_append :
    ∀ (f n : Nat) (ds : List Char), ∃ t, Nat.toDigitsCore 10 f n ds = t ++ ds := by
  intro f
  induction f with
  | zero => exact fun n ds => ⟨[], rfl⟩
  | succ f ih =>
    intro n ds
    rw [toDigitsCore_succ]
    by_cases h0 : n / 10 = 0
    · exact ⟨[Nat.digitChar (n % 10)], by rw [if_pos h0]; rfl⟩
    · obtain ⟨t, ht⟩ := ih (n / 10) (Nat.digitChar (n % 10) :: ds)
      exact ⟨t ++ [Nat.digitChar (n % 10)], by rw [if_neg h0, ht]; simp⟩

/-- The printer `Nat.toDigits` base 10 never returns an empty digit list. -/
theorem toDigits_ne_nil (n : Nat) : Nat.toDigits 10 n ≠ [] := by
  rw [show Nat.toDigits 10 n = Nat.toDigitsCore 10 (n + 1) n [] from rfl,
     toDigitsCore_succ]
  by_cases h0 : n / 10 = 0
  · rw [if_pos h0]; simp
  · rw [if_neg h0]
    obtain ⟨t, ht⟩ := toDigitsCore_append n (n / 10) [Nat.digitChar (n % 10)]
    rw [ht]
    simp

/-- The characters of `Nat.repr` are exactly `Nat.toDigits 10`. -/
theorem repr_data (n : Nat) : (Nat.repr n).data = Nat.toDigits 10 n := rfl

/-- A character list is a prefix of itself followed by anything. -/
theorem isPrefixOf_self_append (l t : List Char) : l.isPrefixOf (l ++ t) = true := by
  induction l with
  | nil => simp [List.isPrefixOf]
  | cons a l ih => simp [List.isPrefixOf, ih]

/-- The numeric suffix of `pfx ++ repr k` relative to `pfx` is `k`. -/
theorem nameSuffix_append (pfx : String) (k : Nat) :
    nameSuffix pfx (pfx ++ Nat.repr k) = some k := by
  unfold nameSuffix
  rw [String.data_append]
  rw [if_pos (isPrefixOf_self_append pfx.data (Nat.repr k).data), List.drop_left]
  have hne : (Nat.repr k).data ≠ [] := by rw [repr_data]; exact toDigits_ne_nil k
  have hdec : decodeDigits 0 ((Nat.repr k).data) = some k := by
    rw [repr_data]; exact decode_toDigits k
  cases hd : (Nat.repr k).data with
  | nil => exact absurd hd hne
  | cons c cs =>
    rw [hd] at hdec
    exact hdec

/-- The suffix-max fold never goes below its initial accumulator. -/
theorem foldl_suffix_init_le (pfx : String) :
    ∀ (nodes : List Node) (a : Int),
      a ≤ nodes.foldl (fun acc n =>
        match nameSuffix pfx n.name with
        | some k => max acc (k : Int)
        | none => acc) a := by
  intro nodes
  induction nodes with
  | nil => exact fun a => le_refl a
  | cons m t ih =>
    intro a
    refine le_trans ?_ (ih _)
    rcases h : nameSuffix pfx m.name with _ | k <;> simp [h, le_max_left]

/-- The suffix-max fold dominates every numeric suffix present. -/
theorem get_largest_ge (pfx : String) :
    ∀ (nodes : List Node) (a : Int) (n : Node) (k : Nat), n ∈ nodes →
      nameSuffix pfx n.name = some k →
      (k : Int) ≤ nodes.foldl (fun acc n =>
        match nameSuffix pfx n.name with
        | some k => max acc (k : Int)
        | none => acc) a := by
  intro nodes
  induction nodes with
  | nil => intro a n k hn; cases hn
  | cons m t ih =>
    intro a n k hn hs
    rcases List.mem_cons.mp hn with rfl | hmem
    · simp only [List.foldl_cons, hs]
      exact le_trans (le_max_right a k) (foldl_suffix_init_le pfx t _)
    · simp only [List.foldl_cons]
      exact ih _ n k hmem hs

/-- The fold `get_largest_node_name_suffix` is at least `-1`. -/
theorem get_largest_lower (nodes : List Node) (pfx : String) :
    -1 ≤ get_largest_node_name_suffix nodes pfx :=
  foldl_suffix_init_le pfx nodes (-1)

/-- Any node name's numeric suffix is bounded by
`get_largest_node_name_suffix`. -/
theorem get_largest_bound (nodes : List Node) (pfx : String) (n : Node) (k : Nat)
    (hn : n ∈ nodes) (hs : nameSuffix pfx n.name = some k) :
    (k : Int) ≤ get_largest_node_name_suffix nodes pfx :=
  get_largest_ge pfx nodes (-1) n k hn hs

/-- An auto-assigned name is never the empty string. -/
theorem append_repr_ne_empty (pfx : String) (k : Nat) : pfx ++ Nat.repr k ≠ "" := by
  intro h
  have hd := congrArg String.data h
  rw [String.data_append, repr_data] at hd
  exact toDigits_ne_nil k (List.append_eq_nil.mp hd).2

/-- The names assigned by the renaming loop are exactly the prefix
followed by consecutive suffixes starting at the loop's start value. -/
theorem renameNodes_assigned (pfx : String) :
    ∀ (nodes : List Node) (k : Nat),
      ∃ cnt, (renameNodes pfx k nodes).2.2 =
        (List.range cnt).map (fun j => pfx ++ Nat.repr (k + j)) := by
  intro nodes
  induction nodes with
  | nil => exact fun k => ⟨0, rfl⟩
  | cons n t ih =>
    intro k
    unfold renameNodes
    by_cases hc : (n.op_type ≠ "Constant" ∧ n.name = "")
    · rw [if_pos hc]
      obtain ⟨cnt, hcnt⟩ := ih (k + 1)
      refine ⟨cnt + 1, ?_⟩
      dsimp only
      rw [hcnt, List.range_succ_eq_map]
      simp only [List.map_cons, List.map_map, Nat.add_zero]
      congr 1
      apply List.map_congr_left
      intro j hj
      simp only [Function.comp, Nat.succ_eq_add_one]
      rw [show k + (j + 1) = k + 1 + j from by omega]
    · rw [if_neg hc]
      exact ih k

/-- After the renaming loop, every non-Constant node has a name. -/
theorem renameNodes_named (pfx : String) :
    ∀ (nodes : List Node) (k : Nat) (n' : Node), n' ∈ (renameNodes pfx k nodes).1 →
      n'.op_type ≠ "Constant" → n'.name ≠ "" := by
  intro nodes
  induction nodes with
  | nil => intro k n' h; cases h
  | cons n t ih =>
    intro k n' hmem hop
    unfold renameNodes at hmem
    by_cases hc : (n.op_type ≠ "Constant" ∧ n.name = "")
    · rw [if_pos hc] at hmem
      dsimp only at hmem
      rcases List.mem_cons.mp hmem with rfl | hm2
      · exact append_repr_ne_empty pfx k
      · exact ih (k + 1) n' hm2 hop
    · rw [if_neg hc] at hmem
      dsimp only at hmem
      rcases List.mem_cons.mp hmem with rfl | hm2
      · push_neg at hc
        exact hc hop
      · exact ih k n' hm2 hop

/-- C5 (amended): in `qnn_preprocess_model`'s renaming phase, every
non-Constant node lacking a name is assigned a numbered name built from
the fixed prefix, with suffixes consecutive from the maximum existing
suffix plus one, and no assigned name collides with any previously
existing node name.  (The original claim said *every* node; Constant
nodes are exempt.) -/
theorem claim5_rename_fresh (m : QnnModel) (start : Nat)
    (hstart : start = (get_largest_node_name_suffix m.nodes unnamedNodePfx + 1).toNat) :
    (∀ n' ∈ (renameNodes unnamedNodePfx start m.nodes).1,
       n'.op_type ≠ "Constant" → n'.name ≠ "") ∧
    (∃ cnt, (renameNodes unnamedNodePfx start m.nodes).2.2 =
       (List.range cnt).map (fun j => unnamedNodePfx ++ Nat.repr (start + j))) ∧
    (∀ a ∈ (renameNodes unnamedNodePfx start m.nodes).2.2,
       ∀ n ∈ m.nodes, a ≠ n.name) := by
  refine ⟨fun n' h => renameNodes_named _ _ _ n' h,
          renameNodes_assigned _ _ _, ?_⟩
  intro a ha n hn heq
  obtain ⟨cnt, hcnt⟩ := renameNodes_assigned unnamedNodePfx m.nodes start
  rw [hcnt] at ha
  obtain ⟨j, hj, rfl⟩ := List.mem_map.mp ha
  have hsuf : nameSuffix unnamedNodePfx n.name = some (start + j) := by
    rw [← heq]
    exact nameSuffix_append _ _
  have hle := get_largest_bound m.nodes unnamedNodePfx n (start + j) hn hsuf
  have hlow := get_largest_lower m.nodes unnamedNodePfx
  omega

/-- C5 counterexample: an unnamed Constant node is left unnamed by the
renaming loop, contradicting the claim's wording that every node lacking
a name is assigned one. -/
theorem claim5_counterexample :
    (mConstUnnamed.nodes.getD 0 default).name = "" ∧
    renameNodes unnamedNodePfx
      (get_largest_node_name_suffix mConstUnnamed.nodes unnamedNodePfx + 1).toNat
      mConstUnnamed.nodes = (mConstUnnamed.nodes, 0, []) :=
  ⟨rfl, by decide⟩

/-- C5 witness: with an existing suffix-3 name, the unnamed Relu node is
renamed to suffix 4, which collides with no pre-existing name. -/
theorem claim5_witness :
    "qnn_preproc_node_4" ∈ (renameNodes unnamedNodePfx
      (get_largest_node_name_suffix mRename.nodes unnamedNodePfx + 1).toNat
      mRename.nodes).2.2 ∧
    mrN0 ∈ mRename.nodes ∧ mrN1 ∈ mRename.nodes ∧
    "qnn_preproc_node_4" ≠ mrN0.name ∧ "qnn_preproc_node_4" ≠ mrN1.name := by
  refine ⟨by decide, by decide, by decide, ?_, ?_⟩
  · exact (claim5_rename_fresh mRename _ rfl).2.2 "qnn_preproc_node_4"
      (by decide) mrN0 (by decide)
  · exact (claim5_rename_fresh mRename _ rfl).2.2 "qnn_preproc_node_4"
      (by decide) mrN1 (by decide)
